import Mathlib

/-!
Verification of the two extraction pipelines of this repository:
`parse-shopee.py` (the Local-Listing Extractor) and `scrape-bricklink.py`
(the Remote Item-Price Fetcher).

The Python sources are shallowly embedded here.  Strings are modelled as
`List Char` (ASCII-level: the Unicode case/whitespace tables of Python are
restricted to their ASCII fragment, which is all the fixed patterns of the
source use).  The specific regular expressions of the source are embedded
as direct scanning functions; for each of them the pattern is simple
enough that Python's backtracking search is equivalent to a deterministic
maximal-munch scan tried at every start position, which is what `reSearch`
does.  BeautifulSoup/requests are external collaborators: an HTML element
is abstracted to the query results the source reads off it, and HTTP
fetching is a function argument plus an explicit log of requested URLs.
-/

namespace BWS

/-! ## Character and string primitives (ASCII models of Python `str` ops) -/

/-- Python's regex `\s` / `str.strip` whitespace, ASCII fragment. -/
def pySpace (c : Char) : Bool :=
  c = ' ' || c = '\t' || c = '\n' || c = '\r' || c = '\x0b' || c = '\x0c'

/-- Python `str.strip()` on a character list. -/
def stripChars (l : List Char) : List Char :=
  ((l.dropWhile pySpace).reverse.dropWhile pySpace).reverse

/-- Python `str.strip()`. -/
def strip (s : String) : String := (stripChars s.toList).asString

/-- Python `s.replace(",", "")`: delete every comma. -/
def removeCommas (s : String) : String :=
  (s.toList.filter (fun ch => ch != ',')).asString

/-- Python truthiness of an optional string variable: `None` and `""` are
falsy, every other string is truthy. -/
def truthy : Option String → Bool
  | none => false
  | some s => s != ""

/-- The value a Python truthiness test keeps: the string when truthy,
otherwise nothing.  Used to state "field X was resolved". -/
def truthyVal (o : Option String) : Option String :=
  if truthy o then o else none

/-- Case-insensitive "the pattern chars lead this text" (`re.IGNORECASE`
literal at one fixed position), ASCII lowering. -/
def ciStarts : List Char → List Char → Bool
  | [], _ => true
  | _ :: _, [] => false
  | p :: ps, c :: cs => (c.toLower == p.toLower) && ciStarts ps cs

/-- Case-insensitive literal match returning the remaining text after the
literal, `none` when the literal does not lead the text. -/
def ciMatchRest : List Char → List Char → Option (List Char)
  | [], l => some l
  | _ :: _, [] => none
  | p :: ps, c :: cs => if c.toLower == p.toLower then ciMatchRest ps cs else none

/-- Case-sensitive "the pattern chars lead this text". -/
def leadsWith : List Char → List Char → Bool
  | [], _ => true
  | _ :: _, [] => false
  | p :: ps, c :: cs => (c == p) && leadsWith ps cs

/-- Python `pat in s`: substring containment (tried at every position). -/
def hasSub (pat : List Char) : List Char → Bool
  | [] => pat.isEmpty
  | c :: r => leadsWith pat (c :: r) || hasSub pat r

/-- Python `re.search` driver: try the positional matcher `m` at every
start position, left to right (including the empty suffix at the end),
and return the first success. -/
def reSearch {α : Type} (m : List Char → Option α) : List Char → Option α
  | [] => m []
  | c :: r =>
    match m (c :: r) with
    | some x => some x
    | none => reSearch m r

/-! ## `parse-shopee.py`: the Local-Listing Extractor -/

/-- Digit characters of `\d` (ASCII). -/
def isDigitCh (c : Char) : Bool := c.isDigit

/-- Five consecutive digits lead the text (`\d{5}` at one position). -/
def fiveDigitsAt : List Char → Bool
  | a :: b :: c :: d :: e :: _ =>
    a.isDigit && b.isDigit && c.isDigit && d.isDigit && e.isDigit
  | _ => false

/-- Scan forward for `\d{5}` without crossing a newline (the `.*` of the
pattern `LEGO.*\d{5}` cannot match `\n`). -/
def digitsBeforeNewline : List Char → Bool
  | [] => false
  | c :: r => if c = '\n' then false else fiveDigitsAt (c :: r) || digitsBeforeNewline r

/-- One start position of `re.search(r"LEGO.*\d{5}", s, re.IGNORECASE)`:
the literal `LEGO` (case-insensitive) followed, on the same line, by five
digits. -/
def legoSearchFrom : List Char → Bool
  | [] => false
  | c :: r =>
    (ciStarts "LEGO".toList (c :: r) && digitsBeforeNewline (List.drop 4 (c :: r)))
      || legoSearchFrom r

/-- `parse-shopee.py` line 21: does a text node match `LEGO.*\d{5}`
(case-insensitive)? -/
def legoMatches (s : String) : Bool := legoSearchFrom s.toList

/-- Character class `[0-9,.]` of the price fallback regex. -/
def priceChar (c : Char) : Bool := c.isDigit || c = ',' || c = '.'

/-- One start position of `re.search(r"RM\s*([0-9,.]+)", text)` with the
captured group returned.  The pattern pieces cannot trade characters
(whitespace is not in `[0-9,.]` and vice versa), so greedy maximal runs
are exact. -/
def rmMatchAt : List Char → Option (List Char)
  | 'R' :: 'M' :: r =>
    let afterWs := r.dropWhile pySpace
    let grp := afterWs.takeWhile priceChar
    if grp.isEmpty then none else some grp
  | _ => none

/-- Character class `[0-9kK.+,]` of the sold-units regex. -/
def soldChar (c : Char) : Bool :=
  c.isDigit || c = 'k' || c = 'K' || c = '.' || c = '+' || c = ','

/-- One start position of `re.search(r"([0-9kK.+,]+)\s*sold", text)` with
the captured group returned.  `s` is neither a class character nor
whitespace, so backtracking cannot shorten the greedy runs: the maximal
class run followed by maximal whitespace must be followed by `sold`. -/
def soldMatchAt (l : List Char) : Option (List Char) :=
  let grp := l.takeWhile soldChar
  if grp.isEmpty then none
  else if leadsWith "sold".toList ((l.drop grp.length).dropWhile pySpace) then some grp
  else none

/-- One output row of the extractor (the dict appended on lines 55–59). -/
structure ProductRecord where
  name : String
  price : String
  unitsSold : String
deriving DecidableEq

/-- One `shop-search-result-view__item` container, abstracted to the
BeautifulSoup query results the loop body reads off it:
`texts` are the container's text nodes in document order (line 21 filters
them by the LEGO regex); `nameDivText` is the `get_text(strip=True)` of
the first `div` with class matching `line-clamp-2`, if such a div exists;
`priceSpanText` is the `get_text(strip=True)` of the first `span` with
class matching the price class pattern, if any; `soldDivText` is the raw
`get_text()` of the first `div` with class matching the sold class
pattern, if any; `fullText` is `item.get_text()`. -/
structure Container where
  texts : List String
  nameDivText : Option String
  priceSpanText : Option String
  soldDivText : Option String
  fullText : String
deriving DecidableEq

/-- Lines 20–28: the final value of the `product_name` variable. -/
def name_resolution (c : Container) : Option String :=
  let textElements := c.texts.filter legoMatches
  let pn : Option String :=
    match textElements with
    | t :: _ => some (strip t)
    | [] => none
  if truthy pn then pn
  else
    match c.nameDivText with
    | some s => some s
    | none => pn

/-- Lines 31–39: the final value of the `price` variable. -/
def price_resolution (c : Container) : Option String :=
  let pr : Option String := c.priceSpanText.map removeCommas
  if truthy pr then pr
  else
    match reSearch rmMatchAt c.fullText.toList with
    | some grp => some (removeCommas grp.asString)
    | none => pr

/-- Lines 42–52: the final value of the `sold_units` variable. -/
def sold_resolution (c : Container) : Option String :=
  let so : Option String :=
    match c.soldDivText with
    | some s => (reSearch soldMatchAt s.toList).map (fun grp => strip grp.asString)
    | none => none
  if truthy so then so
  else
    match reSearch soldMatchAt c.fullText.toList with
    | some grp => some (strip grp.asString)
    | none => so

/-- Lines 18–61, the `try` body for one container: emit a record exactly
when `product_name` is truthy, with `price`/`sold_units` degrading to
`"N/A"` when falsy (lines 54–59). -/
def process_container (c : Container) : Option ProductRecord :=
  let productName := name_resolution c
  let price := price_resolution c
  let soldUnits := sold_resolution c
  if truthy productName then
    some
      { name := productName.getD ""
        price := if truthy price then price.getD "" else "N/A"
        unitsSold := if truthy soldUnits then soldUnits.getD "" else "N/A" }
  else none

/-- One item of the `find_all` result.  `tag` is a container whose
processing runs the loop body to completion; `raising` models a container
whose processing raises an exception (the source guards the body with
`try`/`except` on lines 18 and 63). -/
inductive Item where
  | tag : Container → Item
  | raising : String → Item
deriving DecidableEq

/-- The outcome of the `try` body for one item: a value, or an exception. -/
def process_item : Item → Except String (Option ProductRecord)
  | .tag c => .ok (process_container c)
  | .raising e => .error e

/-- `parse_shopee_html` (lines 7–66): loop over the containers, appending
the emitted records in order; an exception from one container is caught
(line 63), logged and skipped. -/
def parse_shopee_html (items : List Item) : List ProductRecord :=
  items.filterMap fun it =>
    match process_item it with
    | .ok o => o
    | .error _ => none

/-- `main` lines 73–79: all records of all files, in file order. -/
def all_products (docs : List (List Item)) : List ProductRecord :=
  (docs.map parse_shopee_html).flatten

/-- The fixed CSV header row (`fieldnames` on line 84). -/
def CSV_HEADER : String := "Product Name,Price (RM),Units Sold"

/-- csv.DictWriter minimal quoting: quote a field containing a delimiter,
quote char or line break, doubling embedded quote chars. -/
def escQuotes : List Char → List Char
  | [] => []
  | c :: r => if c = '"' then '"' :: '"' :: escQuotes r else c :: escQuotes r

/-- One CSV field under `csv.QUOTE_MINIMAL`. -/
def csv_field (s : String) : String :=
  let l := s.toList
  if l.any (fun c => c = ',' || c = '"' || c = '\n' || c = '\r') then
    ('"' :: escQuotes l ++ ['"']).asString
  else s

/-- One CSV data row in the fixed three-column order. -/
def csv_row (r : ProductRecord) : String :=
  csv_field r.name ++ "," ++ csv_field r.price ++ "," ++ csv_field r.unitsSold

/-- `main` lines 82–88: the CSV file content, as its list of lines.
`none` means no file is created (the `if all_products:` guard on line 82
is Python truthiness, i.e. non-emptiness); otherwise the file is written
once, header line first. -/
def csv_output (docs : List (List Item)) : Option (List String) :=
  match all_products docs with
  | [] => none
  | p :: ps => some (CSV_HEADER :: (p :: ps).map csv_row)

/-! ## `scrape-bricklink.py`: the Remote Item-Price Fetcher -/

/-- One monetary value of a price bucket.  The source stores
`float(group(2).replace(',', ''))`; `amount` here is the comma-stripped
numeric text that the source passes to `float`, so two `Money` values are
equal exactly when the source computes them from the same matched text. -/
structure Money where
  currency : String
  amount : String
deriving DecidableEq

/-- The dict built by `extract_price_box` (lines 98–140): up to seven
optional fields. -/
structure PriceBucket where
  times_sold : Option Nat
  total_lots : Option Nat
  total_qty : Option Nat
  min_price : Option Money
  avg_price : Option Money
  qty_avg_price : Option Money
  max_price : Option Money
deriving DecidableEq

/-- Literal core of `RE_TIMES_SOLD` (line 82); the `\s*(\d+)` tail is
handled by `countAfter`. -/
def RE_TIMES_SOLD : List Char := "Times Sold:".toList

/-- Literal core of `RE_TOTAL_LOTS` (line 83). -/
def RE_TOTAL_LOTS : List Char := "Total Lots:".toList

/-- Literal core of `RE_TOTAL_QTY` (line 84). -/
def RE_TOTAL_QTY : List Char := "Total Qty:".toList

/-- Literal core of `RE_MIN_PRICE` (line 85); the
`\s*([A-Z]+)\s+([\d,\.]+)` tail is handled by `moneyAfter`. -/
def RE_MIN_PRICE : List Char := "Min Price:".toList

/-- Literal core of `RE_AVG_PRICE` (line 86). -/
def RE_AVG_PRICE : List Char := "Avg Price:".toList

/-- Literal core of `RE_QTY_AVG_PRICE` (line 87). -/
def RE_QTY_AVG_PRICE : List Char := "Qty Avg Price:".toList

/-- Literal core of `RE_MAX_PRICE` (line 88). -/
def RE_MAX_PRICE : List Char := "Max Price:".toList

/-- Numeric value of a digit run (Python `int`). -/
def natOfDigits (ds : List Char) : Nat :=
  ds.foldl (fun n c => 10 * n + (c.toNat - '0'.toNat)) 0

/-- The `\s*(\d+)` tail of the three count patterns, after the literal.
Whitespace and digits cannot trade characters, so greedy maximal runs are
exact. -/
def countAfter (l : List Char) : Option Nat :=
  let ds := (l.dropWhile pySpace).takeWhile isDigitCh
  if ds.isEmpty then none else some (natOfDigits ds)

/-- Character class `[\d,\.]` of the price patterns. -/
def amtChar (c : Char) : Bool := c.isDigit || c = ',' || c = '.'

/-- The `\s*([A-Z]+)\s+([\d,\.]+)` tail of the four price patterns, after
the literal.  Under `re.IGNORECASE`, `[A-Z]` matches both cases.  No two
adjacent pieces share characters, so greedy maximal runs are exact.
Group 1 is upper-cased, group 2 comma-stripped, as on lines 117–118. -/
def moneyAfter (l : List Char) : Option Money :=
  let r1 := l.dropWhile pySpace
  let cur := r1.takeWhile Char.isAlpha
  if cur.isEmpty then none
  else
    let r2 := r1.drop cur.length
    let ws := r2.takeWhile pySpace
    if ws.isEmpty then none
    else
      let amt := (r2.drop ws.length).takeWhile amtChar
      if amt.isEmpty then none
      else
        some { currency := (cur.map Char.toUpper).asString
               amount := (amt.filter (fun ch => ch != ',')).asString }

/-- One start position of a count pattern: the literal, then `\s*(\d+)`. -/
def countMatchAt (lit : List Char) (l : List Char) : Option Nat :=
  (ciMatchRest lit l).bind countAfter

/-- `RE_<count>.search(text)` followed by `int(group(1))`. -/
def countFind (lit : List Char) (t : List Char) : Option Nat :=
  reSearch (countMatchAt lit) t

/-- One start position of a price pattern: the literal, then
`\s*([A-Z]+)\s+([\d,\.]+)`. -/
def moneyMatchAt (lit : List Char) (l : List Char) : Option Money :=
  (ciMatchRest lit l).bind moneyAfter

/-- `RE_<price>.search(text)` followed by the dict construction of lines
116–119. -/
def moneyFind (lit : List Char) (t : List Char) : Option Money :=
  reSearch (moneyMatchAt lit) t

/-- Lines 98–140: the seven independent regex extractions over the text
of one bucket container. -/
def extract_fields (t : List Char) : PriceBucket :=
  { times_sold := countFind RE_TIMES_SOLD t
    total_lots := countFind RE_TOTAL_LOTS t
    total_qty := countFind RE_TOTAL_QTY t
    min_price := moneyFind RE_MIN_PRICE t
    avg_price := moneyFind RE_AVG_PRICE t
    qty_avg_price := moneyFind RE_QTY_AVG_PRICE t
    max_price := moneyFind RE_MAX_PRICE t }

/-- Python truthiness of the `data` dict on line 142: at least one field
was inserted. -/
def bucket_is_empty (b : PriceBucket) : Bool :=
  b.times_sold.isNone && b.total_lots.isNone && b.total_qty.isNone &&
  b.min_price.isNone && b.avg_price.isNone && b.qty_avg_price.isNone &&
  b.max_price.isNone

/-- `extract_price_box` (lines 90–142) on the extracted text of one
bucket container (`box.get_text(separator='\n', strip=True)` is the
argument).  Line 95 rejects any text whose lower-casing contains
`(unavailable)`; line 142 normalizes an empty dict to `None`. -/
def extract_price_box (text : String) : Option PriceBucket :=
  let cs := text.toList
  if hasSub "(unavailable)".toList (cs.map Char.toLower) then none
  else
    let data := extract_fields cs
    if bucket_is_empty data then none else some data

/-- The four bucket slots of the result dict (lines 145–150). -/
structure PricingData where
  six_month_new : Option PriceBucket
  six_month_used : Option PriceBucket
  current_new : Option PriceBucket
  current_used : Option PriceBucket
deriving DecidableEq

/-- Lines 145–156: the four buckets stay `None` unless the structural
selector produced at least four boxes, in which case the first four are
extracted in fixed order.  A box is represented by its extracted text. -/
def assemble_pricing : List String → PricingData
  | b0 :: b1 :: b2 :: b3 :: _ =>
    { six_month_new := extract_price_box b0
      six_month_used := extract_price_box b1
      current_new := extract_price_box b2
      current_used := extract_price_box b3 }
  | _ =>
    { six_month_new := none
      six_month_used := none
      current_new := none
      current_used := none }

/-- Split a character list on one separator character (used to model the
single-character splits of `urlparse`/`parse_qs`). -/
def splitOnChar (sep : Char) : List Char → List (List Char)
  | [] => [[]]
  | c :: r =>
    let rest := splitOnChar sep r
    if c = sep then [] :: rest
    else
      match rest with
      | [] => [[c]]
      | g :: gs => (c :: g) :: gs

/-- `urllib.parse.urlparse(url).query`: drop the fragment (after the
first `#`), then take everything after the first `?`. -/
def url_query (url : String) : String :=
  let noFrag := (splitOnChar '#' url.toList).headD []
  match splitOnChar '?' noFrag with
  | [] => ""
  | [_] => ""
  | _ :: rest => (List.intercalate ['?'] rest).asString

/-- `urllib.parse.unquote_plus` restricted to its `+`-to-space step
(percent escapes are not modelled; no fixed pattern of the source
contains one). -/
def unqPlus (l : List Char) : List Char :=
  l.map fun c => if c = '+' then ' ' else c

/-- `urllib.parse.parse_qs` with default flags, as the ordered pair list
`parse_qsl` produces: split on `&`, skip empty parts, skip parts with no
`=`, split each part on the first `=`, skip blank values. -/
def parse_qs_pairs (query : String) : List (String × String) :=
  (splitOnChar '&' query.toList).filterMap fun part =>
    if part.isEmpty then none
    else
      match splitOnChar '=' part with
      | [] => none
      | [_] => none
      | k :: vs =>
        let v := List.intercalate ['='] vs
        if v.isEmpty then none
        else some ((unqPlus k).asString, (unqPlus v).asString)

/-- `params[key][0]`: the first value recorded for `key`, if the key is
present (`parse_qs` groups values in order of appearance). -/
def firstParam (ps : List (String × String)) (k : String) : Option String :=
  (ps.find? (fun p => p.1 = k)).map (fun p => p.2)

/-- The fixed priority order of recognized type parameters (line 42). -/
def ITEM_KEYS : List String := ["P", "S", "M", "G", "C", "I", "O", "B"]

/-- Lines 42–46: scan the keys in priority order, stop at the first one
present in the parsed query, and take that key with its first value. -/
def find_locator (ps : List (String × String)) : Option (String × String)  :=
  ITEM_KEYS.findSome? fun k => (firstParam ps k).map fun v => (k, v)

/-- The failure modes of one invocation (spec taxonomy names; the source
raises `ValueError` for the first and `requests` errors for the second). -/
inductive ScrapeError where
  | locatorNotFound : String → ScrapeError
  | fetchFailed : String → ScrapeError
deriving DecidableEq

/-- Lines 35–49: derive the catalog locator from the URL or fail.  The
`if not item_type or not item_id` check on line 48 treats empty strings
as absent, mirroring Python truthiness. -/
def locate_item (url : String) : Except ScrapeError (String × String) :=
  match find_locator (parse_qs_pairs (url_query url)) with
  | some (t, i) =>
    if t == "" || i == "" then .error (.locatorNotFound url) else .ok (t, i)
  | none => .error (.locatorNotFound url)

/-- A fetched and parsed page, abstracted to the query results the source
reads off it: `title`/`weight` are the stripped texts behind the two
fixed id selectors (lines 64–68), `boxTexts` are the extracted texts of
the elements the fixed structural selector returns (lines 78–79 and 92). -/
structure Fetched where
  title : Option String
  weight : Option String
  boxTexts : List String
deriving DecidableEq

/-- The return dict of `scrape_bricklink_item` (lines 158–164). -/
structure Summary where
  item_id : String
  item_type : String
  title : Option String
  weight : Option String
  pricing : PricingData
deriving DecidableEq

/-- The second URL (line 71). -/
def price_guide_url (t i : String) : String :=
  "https://www.bricklink.com/catalogPG.asp?" ++ t ++ "=" ++ i

/-- `scrape_bricklink_item` (lines 14–164).  `fetch` abstracts one HTTP
GET plus parse (an `Except.error` is a non-success status or transport
error, which `raise_for_status` turns into a fatal exception).  The
second component of the result is the list of URLs actually requested,
in order, so that "no request was issued" is expressible. -/
def scrape_bricklink_item (fetch : String → Except String Fetched) (url : String) :
    Except ScrapeError Summary × List String :=
  match locate_item url with
  | .error e => (.error e, [])
  | .ok (t, i) =>
    match fetch url with
    | .error e => (.error (.fetchFailed e), [url])
    | .ok page =>
      let pgUrl := price_guide_url t i
      match fetch pgUrl with
      | .error e => (.error (.fetchFailed e), [url, pgUrl])
      | .ok pricePage =>
        (.ok
          { item_id := i
            item_type := t
            title := page.title
            weight := page.weight
            pricing := assemble_pricing pricePage.boxTexts },
         [url, pgUrl])

/-- Refinement-side definition, following the spec's words: "scan a
fixed priority-ordered set of single-letter parameter names; the first
one present determines the catalog locator's kind and id". -/
def spec_first_present_locator (ps : List (String × String)) : Option (String × String) :=
  (ITEM_KEYS.find? fun k => (firstParam ps k).isSome).bind
    fun k => (firstParam ps k).map fun v => (k, v)

/-! ## Helper lemmas -/

/-- Unfolding equation of `reSearch` on a non-empty text. -/
theorem reSearch_cons {α : Type} (m : List Char → Option α) (c : Char) (r : List Char) :
    reSearch m (c :: r) =
      match m (c :: r) with
      | some x => some x
      | none => reSearch m r := rfl

/-- `re.search` finds nothing exactly when the positional matcher fails
at every start position. -/
theorem reSearch_eq_none_iff {α : Type} (m : List Char → Option α) :
    ∀ t : List Char, reSearch m t = none ↔ ∀ q, m (t.drop q) = none := by
  intro t
  induction t with
  | nil =>
    constructor
    · intro h q
      simpa [List.drop_nil] using h
    · intro h
      simpa using h 0
  | cons c r ih =>
    rw [reSearch_cons]
    cases hm : m (c :: r) with
    | some x =>
      constructor
      · intro h
        cases h
      · intro h
        have := h 0
        rw [List.drop_zero, hm] at this
        cases this
    | none =>
      rw [ih]
      constructor
      · intro h q
        cases q with
        | zero => simpa using hm
        | succ q' => simpa [List.drop_succ_cons] using h q'
      · intro h q
        simpa [List.drop_succ_cons] using h (q + 1)

/-- `re.search` returns a value exactly when some start position yields
it while every earlier start position fails (leftmost match). -/
theorem reSearch_eq_some_iff {α : Type} (m : List Char → Option α) :
    ∀ (t : List Char) (x : α),
      reSearch m t = some x ↔
        ∃ q, m (t.drop q) = some x ∧ ∀ q' < q, m (t.drop q') = none := by
  intro t
  induction t with
  | nil =>
    intro x
    constructor
    · intro h
      exact ⟨0, by simpa using h, by omega⟩
    · rintro ⟨q, hq, -⟩
      simpa [List.drop_nil] using hq
  | cons c r ih =>
    intro x
    rw [reSearch_cons]
    cases hm : m (c :: r) with
    | some y =>
      constructor
      · intro h
        refine ⟨0, ?_, by omega⟩
        rw [List.drop_zero, hm]
        exact h
      · rintro ⟨q, hq, hmin⟩
        cases q with
        | zero =>
          rw [List.drop_zero, hm] at hq
          exact hq
        | succ q' =>
          have := hmin 0 (Nat.succ_pos _)
          rw [List.drop_zero, hm] at this
          cases this
    | none =>
      rw [ih x]
      constructor
      · rintro ⟨q, hq, hmin⟩
        refine ⟨q + 1, by simpa [List.drop_succ_cons] using hq, ?_⟩
        intro q' hq'
        cases q' with
        | zero => simpa using hm
        | succ q'' => simpa [List.drop_succ_cons] using hmin q'' (by omega)
      · rintro ⟨q, hq, hmin⟩
        cases q with
        | zero =>
          rw [List.drop_zero, hm] at hq
          cases hq
        | succ q' =>
          refine ⟨q', by simpa [List.drop_succ_cons] using hq, ?_⟩
          intro q'' hq''
          simpa [List.drop_succ_cons] using hmin (q'' + 1) (by omega)

/-- A case-insensitive literal match succeeds exactly when the literal
leads the text, and then consumes exactly the literal's length. -/
theorem ciMatchRest_eq : ∀ lit l : List Char,
    ciMatchRest lit l = if ciStarts lit l then some (l.drop lit.length) else none := by
  intro lit
  induction lit with
  | nil =>
    intro l
    simp [ciMatchRest, ciStarts]
  | cons p ps ih =>
    intro l
    cases l with
    | nil => simp [ciMatchRest, ciStarts]
    | cons c cs =>
      simp only [ciMatchRest, ciStarts, List.length_cons, List.drop_succ_cons]
      by_cases h : c.toLower == p.toLower
      · simp [h, ih]
      · simp [h]

/-- Splitting a case-insensitive literal into two halves. -/
theorem ciStarts_append : ∀ a b l : List Char,
    ciStarts (a ++ b) l = (ciStarts a l && ciStarts b (l.drop a.length)) := by
  intro a
  induction a with
  | nil =>
    intro b l
    simp [ciStarts]
  | cons p ps ih =>
    intro b l
    cases l with
    | nil => simp [ciStarts]
    | cons c cs =>
      simp [ciStarts, ih, List.drop_succ_cons, Bool.and_assoc]

/-- A non-empty literal can only lead a suffix that exists. -/
theorem lt_length_of_ciStarts (lit t : List Char) (q : Nat) (hne : lit ≠ [])
    (h : ciStarts lit (t.drop q) = true) : q < t.length := by
  by_contra hq
  push_neg at hq
  rw [List.drop_eq_nil_of_le hq] at h
  cases lit with
  | nil => exact hne rfl
  | cons p ps => simp [ciStarts] at h

/-- The avg-price pattern literal is a suffix of the qty-avg-price
pattern literal, offset by the four characters of `Qty `; whenever the
qty pattern matches at a position, the avg pattern matches four
characters later and the two matches parse the identical continuation. -/
theorem qty_avg_shift (t : List Char) (p : Nat)
    (h : ciStarts RE_QTY_AVG_PRICE (t.drop p) = true) :
    ciStarts RE_AVG_PRICE (t.drop (p + 4)) = true ∧
    moneyMatchAt RE_QTY_AVG_PRICE (t.drop p) = moneyMatchAt RE_AVG_PRICE (t.drop (p + 4)) := by
  have hdec : RE_QTY_AVG_PRICE = "Qty ".toList ++ RE_AVG_PRICE := by decide
  have hsplit := ciStarts_append "Qty ".toList RE_AVG_PRICE (t.drop p)
  rw [hdec, hsplit] at h
  rw [Bool.and_eq_true] at h
  have hdd : (t.drop p).drop ("Qty ".toList).length = t.drop (p + 4) := by
    rw [List.drop_drop]
    norm_num [Nat.add_comm]
  have hA : ciStarts RE_AVG_PRICE (t.drop (p + 4)) = true := by
    rw [← hdd]
    exact h.2
  refine ⟨hA, ?_⟩
  have hq : ciStarts RE_QTY_AVG_PRICE (t.drop p) = true := by
    rw [hdec, hsplit, Bool.and_eq_true]
    exact h
  rw [moneyMatchAt, moneyMatchAt, ciMatchRest_eq, ciMatchRest_eq, if_pos hq, if_pos hA]
  have h14 : RE_QTY_AVG_PRICE.length = 14 := by decide
  have h10 : RE_AVG_PRICE.length = 10 := by decide
  rw [h14, h10, Option.some_bind, Option.some_bind, List.drop_drop, List.drop_drop]

/-- The value kept by a Python truthiness test, fed to `.getD`, is the if
expression the source writes on lines 57–58. -/
theorem truthyVal_getD (o : Option String) :
    (truthyVal o).getD "N/A" = if truthy o then o.getD "" else "N/A" := by
  cases o with
  | none => simp [truthyVal, truthy]
  | some s =>
    by_cases h : truthy (some s)
    · simp [truthyVal, h]
    · simp [truthyVal, h]

/-- Comma removal leaves no comma behind. -/
theorem removeCommas_no_comma (t : String) : ',' ∉ (removeCommas t).toList := by
  intro hmem
  have : (removeCommas t).toList = t.toList.filter (fun ch => ch != ',') := rfl
  rw [this, List.mem_filter] at hmem
  simp at hmem

/-- Every string the price resolution produces went through
`removeCommas` (both the primary-selector path and the regex fallback). -/
theorem price_resolution_comma_free (c : Container) :
    ∀ s, price_resolution c = some s → ',' ∉ s.toList := by
  intro s h
  simp only [price_resolution] at h
  cases hspan : c.priceSpanText with
  | some x =>
    rw [hspan] at h
    by_cases ht : truthy (Option.map removeCommas (some x))
    · rw [if_pos ht] at h
      simp only [Option.map_some'] at h
      have : s = removeCommas x := by
        injection h with h'
        exact h'.symm
      rw [this]
      exact removeCommas_no_comma _
    · rw [if_neg ht] at h
      cases hsearch : reSearch rmMatchAt c.fullText.toList with
      | some g =>
        rw [hsearch] at h
        have : s = removeCommas g.asString := by
          injection h with h'
          exact h'.symm
        rw [this]
        exact removeCommas_no_comma _
      | none =>
        rw [hsearch] at h
        simp only [Option.map_some'] at h
        have : s = removeCommas x := by
          injection h with h'
          exact h'.symm
        rw [this]
        exact removeCommas_no_comma _
  | none =>
    rw [hspan] at h
    simp only [Option.map_none'] at h
    rw [if_neg (by simp [truthy])] at h
    cases hsearch : reSearch rmMatchAt c.fullText.toList with
    | some g =>
      rw [hsearch] at h
      have : s = removeCommas g.asString := by
        injection h with h'
        exact h'.symm
      rw [this]
      exact removeCommas_no_comma _
    | none =>
      rw [hsearch] at h
      cases h

/-- The priority-order loop of lines 42–46 (a `findSome?`) picks exactly
the first key of the list that is present in the parsed query. -/
theorem findSome?_as_find?_bind (ps : List (String × String)) :
    ∀ keys : List String,
      (keys.findSome? fun k => (firstParam ps k).map fun v => (k, v)) =
        (keys.find? fun k => (firstParam ps k).isSome).bind
          fun k => (firstParam ps k).map fun v => (k, v) := by
  intro keys
  induction keys with
  | nil => rfl
  | cons k ks ih =>
    cases h : firstParam ps k with
    | some v => simp [List.findSome?_cons, List.find?_cons, h]
    | none => simp [List.findSome?_cons, List.find?_cons, h, ih]

/-! ## Example inputs used by counterexamples and witnesses -/

/-- A listing container whose text carries a comma-grouped units-sold
number. -/
def commaSoldContainer : Container :=
  { texts := ["LEGO Set 12345"]
    nameDivText := none
    priceSpanText := none
    soldDivText := none
    fullText := "LEGO Set 12345 RM 59 1,234 sold" }

/-- A well-formed listing container used to witness CSV creation. -/
def csvDemoContainer : Container :=
  { texts := ["LEGO Star Wars 75192 Millennium Falcon"]
    nameDivText := none
    priceSpanText := some "1,299.00"
    soldDivText := none
    fullText := "LEGO Star Wars 75192 Millennium Falcon RM 1,299.00 2.3k sold" }

/-! ## Claim theorems -/

/-- Claim C1: for every listing container, a `ProductRecord` is emitted
if and only if a (truthy) name was resolved for it, and when the name is
resolved the price and units-sold fields degrade to the sentinel `"N/A"`
whenever their own resolution failed, instead of the record being
dropped. -/
theorem shopee_record_iff_name_resolved :
    ∀ c : Container,
      process_container c =
        (truthyVal (name_resolution c)).map fun n =>
          { name := n
            price := (truthyVal (price_resolution c)).getD "N/A"
            unitsSold := (truthyVal (sold_resolution c)).getD "N/A" } := by
  intro c
  by_cases h : truthy (name_resolution c)
  · cases hn : name_resolution c with
    | none => rw [hn] at h; simp [truthy] at h
    | some s =>
      rw [hn] at h
      simp only [truthyVal_getD]
      simp [process_container, truthyVal, hn, h]
  · simp [process_container, truthyVal, h]

/-- Claim C2, counterexample: the source strips thousands-separator
commas from the price on both paths, but the units-sold token is emitted
verbatim, so a container whose text reads `... 1,234 sold` produces a
record whose units-sold field still contains a comma.  This refutes the
claim that both fields are always free of thousands separators. -/
theorem shopee_sold_comma_kept_cex :
    process_container commaSoldContainer =
      some { name := "LEGO Set 12345", price := "59", unitsSold := "1,234" } ∧
    ',' ∈ (ProductRecord.mk "LEGO Set 12345" "59" "1,234").unitsSold.toList := by
  constructor
  · decide
  · decide

/-- Claim C2 as amended: for every emitted record the price field is free
of thousands-separator commas (commas are stripped on both the
primary-selector path and the regex-fallback path); the units-sold field
is the regex-matched token emitted verbatim and may retain commas. -/
theorem shopee_price_comma_free :
    ∀ (c : Container) (r : ProductRecord),
      process_container c = some r → ',' ∉ r.price.toList := by
  intro c r h
  simp only [process_container] at h
  by_cases hn : truthy (name_resolution c)
  · rw [if_pos hn] at h
    injection h with h'
    by_cases hp : truthy (price_resolution c)
    · cases hpr : price_resolution c with
      | none => rw [hpr] at hp; simp [truthy] at hp
      | some s =>
        rw [hpr] at hp
        have hprice : r.price = s := by
          rw [← h']
          simp [hpr, hp]
        rw [hprice]
        exact price_resolution_comma_free c s hpr
    · have hprice : r.price = "N/A" := by
        rw [← h']
        simp [hp]
      rw [hprice]
      decide
  · rw [if_neg hn] at h
    cases h

/-- Claim C2 witness: the amended theorem applied to the comma-sold
container, whose emitted price is `"59"`. -/
theorem shopee_price_comma_free_witness :
    ',' ∉ (ProductRecord.mk "LEGO Set 12345" "59" "1,234").price.toList :=
  shopee_price_comma_free commaSoldContainer
    (ProductRecord.mk "LEGO Set 12345" "59" "1,234") (by decide)

/-- Claim C3: the catalog locator is derived by scanning the parsed query
parameters in the fixed priority order `[P, S, M, G, C, I, O, B]` and
taking the first parameter present as (kind, id) — so when two recognized
parameters are both present the earlier one in that order wins — and the
URL `...?S=31113-1` yields kind `S` with id `31113-1`. -/
theorem bricklink_locator_priority_order :
    (∀ ps : List (String × String), find_locator ps = spec_first_present_locator ps) ∧
    locate_item "https://www.bricklink.com/v2/catalog/catalogitem.page?S=31113-1" =
      .ok ("S", "31113-1") :=
  ⟨fun ps => findSome?_as_find?_bind ps ITEM_KEYS, by rfl⟩

/-- Claim C4: when the fixed structural selector produced fewer than four
bucket containers, all four buckets of the result stay `None`; none of
the containers that were found is assigned. -/
theorem bricklink_fewer_than_four_boxes_all_null :
    ∀ boxes : List String, boxes.length < 4 →
      assemble_pricing boxes =
        { six_month_new := none
          six_month_used := none
          current_new := none
          current_used := none } := by
  intro boxes h
  rcases boxes with _ | ⟨a, _ | ⟨b, _ | ⟨c, _ | ⟨d, rest⟩⟩⟩⟩
  · rfl
  · rfl
  · rfl
  · rfl
  · simp [List.length_cons] at h
    omega

/-- Claim C4 witness: three boxes, one of them with extractable fields,
still yield four null buckets. -/
theorem bricklink_fewer_than_four_boxes_all_null_witness :
    assemble_pricing ["Times Sold: 12", "Min Price: USD 10.00", "x"] =
      { six_month_new := none
        six_month_used := none
        current_new := none
        current_used := none } :=
  bricklink_fewer_than_four_boxes_all_null _ (by decide)

/-- Claim C5: a bucket container whose extracted text contains the marker
`(unavailable)` in any letter case yields a null bucket, regardless of
what else the text contains. -/
theorem bricklink_unavailable_yields_null :
    ∀ text : String,
      hasSub "(unavailable)".toList (text.toList.map Char.toLower) = true →
      extract_price_box text = none := by
  intro t h
  simp only [extract_price_box]
  rw [h]
  simp

/-- Claim C5 witness: the marker in mixed case wins even though numeric
field patterns are present in the same text. -/
theorem bricklink_unavailable_yields_null_witness :
    extract_price_box "Times Sold: 12\nMin Price: USD 10.00\n(Unavailable)" = none :=
  bricklink_unavailable_yields_null _ (by decide)

/-- Claim C6: an exception raised while processing one listing container
is caught and only that container is skipped: the records of the
surrounding containers of the same document, and of all other documents
in the batch, are exactly those produced without the raising container. -/
theorem shopee_exception_skips_container :
    ∀ (pre suf : List Item) (e : String) (dpre dsuf : List (List Item)) (d1 d2 : List Item),
      parse_shopee_html (pre ++ Item.raising e :: suf) =
        parse_shopee_html pre ++ parse_shopee_html suf ∧
      all_products (dpre ++ (d1 ++ Item.raising e :: d2) :: dsuf) =
        all_products (dpre ++ (d1 ++ d2) :: dsuf) := by
  intro pre suf e dpre dsuf d1 d2
  have h1 : ∀ a b : List Item,
      parse_shopee_html (a ++ Item.raising e :: b) =
        parse_shopee_html a ++ parse_shopee_html b := by
    intro a b
    simp [parse_shopee_html, List.filterMap_append, List.filterMap_cons, process_item]
  refine ⟨h1 pre suf, ?_⟩
  simp [all_products, parse_shopee_html, List.filterMap_append, List.filterMap_cons,
    process_item]

/-- Claim C7: when the URL's query string contains none of the eight
recognized parameters, the scraper fails with the locator-not-found error
and the request log is empty — no HTTP request is issued, for any
behaviour of the HTTP collaborator. -/
theorem bricklink_no_locator_no_request :
    ∀ url : String,
      (∀ k ∈ ITEM_KEYS, firstParam (parse_qs_pairs (url_query url)) k = none) →
      ∀ fetch : String → Except String Fetched,
        scrape_bricklink_item fetch url = (.error (.locatorNotFound url), []) := by
  intro url h fetch
  have hf : find_locator (parse_qs_pairs (url_query url)) = none := by
    rw [find_locator, List.findSome?_eq_none_iff]
    intro k hk
    rw [h k hk]
    rfl
  simp [scrape_bricklink_item, locate_item, hf]

/-- Claim C7 witness: a URL with only unrecognized parameters fails
before any fetch, even under a collaborator that would answer. -/
theorem bricklink_no_locator_no_request_witness :
    scrape_bricklink_item (fun _ => .ok { title := none, weight := none, boxTexts := [] })
        "https://example.com/catalogitem.page?x=1&y=2" =
      (.error (.locatorNotFound "https://example.com/catalogitem.page?x=1&y=2"), []) :=
  bricklink_no_locator_no_request _ (by decide) _

/-- Claim C8: a bucket container without the unavailable marker in which
none of the seven field patterns matched (every field of the extraction
is empty) yields a null bucket rather than an empty record. -/
theorem bricklink_empty_bucket_null :
    ∀ text : String,
      hasSub "(unavailable)".toList (text.toList.map Char.toLower) = false →
      bucket_is_empty (extract_fields text.toList) = true →
      extract_price_box text = none := by
  intro t h1 h2
  simp only [extract_price_box]
  rw [h1, h2]
  simp

/-- Claim C8 witness: a text with no marker and no recognizable field. -/
theorem bricklink_empty_bucket_null_witness :
    extract_price_box "Listing data pending" = none :=
  bricklink_empty_bucket_null _ (by decide) (by decide)

/-- Claim C9: the CSV file is created exactly when at least one record
was extracted across all input files; when it is created it is written
once, with the fixed three-column header line first and one row per
record. -/
theorem shopee_csv_written_iff_records :
    ∀ docs : List (List Item),
      (all_products docs = [] → csv_output docs = none) ∧
      (all_products docs ≠ [] →
        csv_output docs = some (CSV_HEADER :: (all_products docs).map csv_row)) := by
  intro docs
  constructor
  · intro h
    simp [csv_output, h]
  · intro h
    cases hh : all_products docs with
    | nil => exact absurd hh h
    | cons p ps => simp [csv_output, hh]

/-- Claim C9 witness: an empty batch produces no file; a batch with one
extractable container produces the header plus its row. -/
theorem shopee_csv_written_iff_records_witness :
    csv_output [] = none ∧
    csv_output [[Item.tag csvDemoContainer]] =
      some (CSV_HEADER :: (all_products [[Item.tag csvDemoContainer]]).map csv_row) :=
  ⟨(shopee_csv_written_iff_records []).1 rfl,
   (shopee_csv_written_iff_records [[Item.tag csvDemoContainer]]).2 (by decide)⟩

/-- Claim C10: when every case-insensitive occurrence of `Avg Price:` in
a bucket text is the one embedded inside an occurrence of
`Qty Avg Price:` (four characters earlier), the avg-price extraction and
the qty-avg-price extraction return the same result: the avg-price
pattern matches inside the qty-avg-price text, so the two fields are not
independent. -/
theorem bricklink_avg_follows_qty_avg :
    ∀ t : List Char,
      (∀ q, q < t.length → ciStarts RE_AVG_PRICE (t.drop q) = true →
        4 ≤ q ∧ ciStarts RE_QTY_AVG_PRICE (t.drop (q - 4)) = true) →
      (extract_fields t).avg_price = (extract_fields t).qty_avg_price := by
  intro t H
  show moneyFind RE_AVG_PRICE t = moneyFind RE_QTY_AVG_PRICE t
  rw [moneyFind, moneyFind]
  have key : ∀ q, ciStarts RE_AVG_PRICE (t.drop q) = true →
      4 ≤ q ∧ q - 4 < t.length ∧
        moneyMatchAt RE_AVG_PRICE (t.drop q) =
          moneyMatchAt RE_QTY_AVG_PRICE (t.drop (q - 4)) := by
    intro q hs
    have hlen : q < t.length := lt_length_of_ciStarts _ t q (by decide) hs
    obtain ⟨h4, hqty⟩ := H q hlen hs
    have hshift := qty_avg_shift t (q - 4) hqty
    have hq4 : q - 4 + 4 = q := by omega
    rw [hq4] at hshift
    exact ⟨h4, by omega, hshift.2.symm⟩
  cases hres : reSearch (moneyMatchAt RE_QTY_AVG_PRICE) t with
  | none =>
    rw [reSearch_eq_none_iff] at hres
    rw [reSearch_eq_none_iff]
    intro q
    by_cases hs : ciStarts RE_AVG_PRICE (t.drop q) = true
    · obtain ⟨-, -, heq⟩ := key q hs
      rw [heq]
      exact hres (q - 4)
    · rw [moneyMatchAt, ciMatchRest_eq, if_neg hs]
      rfl
  | some x =>
    rw [reSearch_eq_some_iff] at hres
    obtain ⟨p, hp, hmin⟩ := hres
    have hst : ciStarts RE_QTY_AVG_PRICE (t.drop p) = true := by
      by_contra hcon
      rw [moneyMatchAt, ciMatchRest_eq, if_neg hcon] at hp
      cases hp
    obtain ⟨-, hval⟩ := qty_avg_shift t p hst
    rw [reSearch_eq_some_iff]
    refine ⟨p + 4, by rw [← hval]; exact hp, ?_⟩
    intro r hr
    by_cases hs : ciStarts RE_AVG_PRICE (t.drop r) = true
    · obtain ⟨h4, -, heq⟩ := key r hs
      rw [heq]
      exact hmin (r - 4) (by omega)
    · rw [moneyMatchAt, ciMatchRest_eq, if_neg hs]
      rfl

/-- Claim C10 witness: a text whose only `Avg Price:` occurrence sits
inside `Qty Avg Price:` makes both fields equal (and set). -/
theorem bricklink_avg_follows_qty_avg_witness :
    (extract_fields ("Times Sold: 3\nQty Avg Price: US 12.34").toList).avg_price =
      (extract_fields ("Times Sold: 3\nQty Avg Price: US 12.34").toList).qty_avg_price ∧
    (extract_fields ("Times Sold: 3\nQty Avg Price: US 12.34").toList).qty_avg_price =
      some { currency := "US", amount := "12.34" } :=
  ⟨bricklink_avg_follows_qty_avg _ (by decide), by decide⟩

end BWS
